import Mathlib

/-!
Shallow embedding of the wikipedia-agent HTTP service (main.go).

The program is a single-file Go HTTP server with three handlers:
a health handler, a version handler, and a lookup handler that reads the
request body as a topic, delegates to fetchWikipediaSummary (a thin wrapper
around the go-wiki provider), and writes the summary or an error response.

Modelling choices, each traced to the source:
* A request carries a method, a path, a header list and the result of
  reading its body (io.ReadAll may fail, so the body is an Except value
  whose error is the textual description of the read error).
* A response records the status code, the headers set by the handler, and
  the ordered list of body writes; the response body is their concatenation.
  A handler that never calls WriteHeader gets the implicit status 200 that
  Go sends on the first write.
* httpError models net/http func Error: it sets the plain-text content type
  and the nosniff header, writes the status code, and prints the message
  followed by a newline (Fprintln).
* The JSON encoding of a Go map of strings is modelled faithfully to
  encoding/json: keys are sorted, strings are escaped with the HTML-escaping
  escaper that Encoder uses by default, and Encode appends a newline.
* The external go-wiki provider is an opaque capability (Provider) with the
  two operations the source calls: GetPage and page.GetSummary. Errors are
  their textual descriptions, which is all the source uses of them (via the
  percent-v verb of fmt.Sprintf).
* Handlers that must be shown NOT to invoke an operation are instrumented:
  the Tr variants additionally return the ordered trace of the observable
  calls the source makes (body read, fetcher invocation, provider calls).
-/

instance {ε α : Type} [DecidableEq ε] [DecidableEq α] : DecidableEq (Except ε α)
  | .error e₁, .error e₂ =>
      if h : e₁ = e₂ then isTrue (by rw [h]) else isFalse (by simp [h])
  | .error _, .ok _ => isFalse (by simp)
  | .ok _, .error _ => isFalse (by simp)
  | .ok a₁, .ok a₂ =>
      if h : a₁ = a₂ then isTrue (by rw [h]) else isFalse (by simp [h])

/-- An inbound HTTP request as seen by a handler: method, URL path, header
list, and the outcome of reading the whole body with io.ReadAll — either the
body bytes as a string or the textual description of the read error. -/
structure Request where
  method : String
  path : String
  headers : List (String × String)
  body : Except String String
  deriving DecidableEq, Repr

/-- An HTTP response: status code, headers explicitly set by the handler,
and the ordered list of writes to the response writer. -/
structure Response where
  status : Nat
  headers : List (String × String)
  writes : List String
  deriving DecidableEq, Repr

/-- The response body is the concatenation of all writes, in order. -/
def Response.body (resp : Response) : String :=
  String.join resp.writes

/-- Model of net/http func Error(w, error, code): it sets the plain-text
content type and nosniff headers, writes the header with the given code, and
writes the error message followed by a newline (fmt.Fprintln). -/
def httpError (msg : String) (code : Nat) : Response :=
  { status := code
  , headers := [("Content-Type", "text/plain; charset=utf-8"),
                ("X-Content-Type-Options", "nosniff")]
  , writes := [msg ++ "\n"] }

/-- Lower-case hexadecimal digit, as used by encoding/json for control and
HTML-significant characters. -/
def jsonHexDigit (n : Nat) : Char :=
  (String.data "0123456789abcdef").getD n '0'

/-- Escaping of one character inside a JSON string, translated from the
string encoder of encoding/json with HTML escaping on (the default for
json.NewEncoder): quote, backslash, newline, carriage return and tab get
two-character escapes; less-than, greater-than charaters and the ampersand get
their u-escapes; remaining control characters get u-00 escapes; the line and
paragraph separators get u-escapes; every other character stands for itself. -/
def goJSONEscapeChar (c : Char) : List Char :=
  if c = '"' then ['\\', '"']
  else if c = '\\' then ['\\', '\\']
  else if c = '\n' then ['\\', 'n']
  else if c = '\r' then ['\\', 'r']
  else if c = '\t' then ['\\', 't']
  else if c = '<' then String.data "\\u003c"
  else if c = '>' then String.data "\\u003e"
  else if c = '&' then String.data "\\u0026"
  else if c.toNat < 32 then
    ['\\', 'u', '0', '0', jsonHexDigit (c.toNat / 16), jsonHexDigit (c.toNat % 16)]
  else if c.toNat = 0x2028 then String.data "\\u2028"
  else if c.toNat = 0x2029 then String.data "\\u2029"
  else [c]

/-- Escape every character of a character list, concatenating the results. -/
def escapeChars : List Char → List Char
  | [] => []
  | c :: cs => goJSONEscapeChar c ++ escapeChars cs

/-- A Go JSON string literal: quote, escaped contents, quote. -/
def goJSONString (s : String) : String :=
  "\"" ++ String.mk (escapeChars s.data) ++ "\""

/-- Lexicographic at-most comparison of character lists, the order in which
Go sorts map keys (byte-wise string comparison). -/
def charListLe : List Char → List Char → Bool
  | [], _ => true
  | _ :: _, [] => false
  | a :: as, b :: bs =>
      if a.toNat < b.toNat then true
      else if b.toNat < a.toNat then false
      else charListLe as bs

/-- Byte-wise string comparison used for key sorting. -/
def strLe (a b : String) : Bool :=
  charListLe a.data b.data

/-- Insert one key-value pair into a key-sorted association list. -/
def insertByKey (kv : String × String) : List (String × String) → List (String × String)
  | [] => [kv]
  | x :: xs => if strLe kv.1 x.1 then kv :: x :: xs else x :: insertByKey kv xs

/-- Sort an association list by key, as encoding/json sorts the keys of a Go
map before encoding it. -/
def sortByKey : List (String × String) → List (String × String)
  | [] => []
  | x :: xs => insertByKey x (sortByKey xs)

/-- The encoding/json encoding of a Go map from string to string: an object
with the keys in sorted order, every key and value a JSON string literal. -/
def goEncodeStringMap (m : List (String × String)) : String :=
  "\x7b" ++
    String.intercalate ","
      ((sortByKey m).map (fun kv => goJSONString kv.1 ++ ":" ++ goJSONString kv.2)) ++
  "\x7d"

/-- The default value of the appVersion variable (main.go line 14); the
Makefile may overwrite it at link time. -/
def appVersion : String := "dev"

/-- The health handler registered for the path /health (main.go lines 62-65):
it sets the JSON content type and encodes a one-entry map with status ok; the
encoder appends a newline, and the implicit status of the first write is 200.
The request, its method included, is never inspected. -/
def healthHandler (_r : Request) : Response :=
  { status := 200
  , headers := [("Content-Type", "application/json")]
  , writes := [goEncodeStringMap [("status", "ok")] ++ "\n"] }

/-- The version handler registered for the path /version (main.go lines
68-78): it sets the JSON content type and encodes a two-entry map carrying
the fixed service name and the appVersion value v; the encoder appends a
newline, and the implicit status of the first write is 200. The request,
its method included, is never inspected. -/
def versionHandler (v : String) (_r : Request) : Response :=
  { status := 200
  , headers := [("Content-Type", "application/json")]
  , writes := [goEncodeStringMap [("name", "wikipedia-agent"), ("version", v)] ++ "\n"] }

/-- The go-wiki provider as an opaque capability: GetPage resolves a title
(with a page id, an auto-suggest flag and a redirect flag) to a page or an
error, and GetSummary extracts the summary of a page or fails. Errors are
carried as their textual descriptions. -/
structure Provider (Page : Type) where
  getPage : String → Int → Bool → Bool → Except String Page
  getSummary : Page → Except String String

/-- One outbound provider call, for call traces. -/
inductive PCall (Page : Type) where
  | getPage (title : String) (pageid : Int) (suggest : Bool) (redirect : Bool)
  | getSummary (page : Page)
  deriving DecidableEq, Repr

/-- fetchWikipediaSummary (main.go lines 17-30): call wiki.GetPage with the
topic, the constant page id -1 and both flags false; on error return the
empty string and the error; otherwise call GetSummary on the page, again
returning the empty string on error, and the summary with no error on
success. The Go pair (string, error) is modelled as String times Option. -/
def fetchWikipediaSummary {Page : Type} (P : Provider Page) (topic : String) :
    String × Option String :=
  match P.getPage topic (-1) false false with
  | .error e => ("", some e)
  | .ok page =>
    match P.getSummary page with
    | .error e => ("", some e)
    | .ok summary => (summary, none)

/-- fetchWikipediaSummary instrumented with the ordered trace of provider
calls it performs; the branching is identical to fetchWikipediaSummary. -/
def fetchWikipediaSummaryTr {Page : Type} (P : Provider Page) (topic : String) :
    (String × Option String) × List (PCall Page) :=
  match P.getPage topic (-1) false false with
  | .error e => (("", some e), [PCall.getPage topic (-1) false false])
  | .ok page =>
    match P.getSummary page with
    | .error e =>
        (("", some e), [PCall.getPage topic (-1) false false, PCall.getSummary page])
    | .ok summary =>
        ((summary, none), [PCall.getPage topic (-1) false false, PCall.getSummary page])

/-- Number of getPage calls in a provider trace. -/
def countGetPage {Page : Type} : List (PCall Page) → Nat
  | [] => 0
  | PCall.getPage _ _ _ _ :: cs => countGetPage cs + 1
  | PCall.getSummary _ :: cs => countGetPage cs

/-- Number of getSummary calls in a provider trace. -/
def countGetSummary {Page : Type} : List (PCall Page) → Nat
  | [] => 0
  | PCall.getPage _ _ _ _ :: cs => countGetSummary cs
  | PCall.getSummary _ :: cs => countGetSummary cs + 1

/-- One observable step of the lookup handler, for handler traces: reading
the request body, or invoking the summary fetcher on a topic. -/
inductive HEvent where
  | readBody
  | fetchTopic (topic : String)
  deriving DecidableEq, Repr

/-- lookupHandler (main.go lines 34-58), instrumented with the trace of its
observable steps, and parameterized by the summary fetcher it invokes (the
source closes over fetchWikipediaSummary). If the method is not POST it
answers with http.Error 405 before touching the body. Otherwise it reads the
whole body; a read failure answers with http.Error 400. Otherwise the body
string is the topic, passed verbatim to the fetcher; a fetch error e answers
with http.Error 500 and the message built by fmt.Sprintf from the literal
lookup error prefix and e; on success the summary is written, unmodified, as
the single body write, with the implicit status 200 and no explicit header. -/
def lookupHandlerTr (fetch : String → String × Option String) (r : Request) :
    Response × List HEvent :=
  if r.method ≠ "POST" then
    (httpError "POST required" 405, [])
  else
    match r.body with
    | .error _ => (httpError "cannot read body" 400, [HEvent.readBody])
    | .ok topic =>
      match fetch topic with
      | (_, some e) =>
          (httpError ("lookup error: " ++ e) 500,
           [HEvent.readBody, HEvent.fetchTopic topic])
      | (summary, none) =>
          ({ status := 200, headers := [], writes := [summary] },
           [HEvent.readBody, HEvent.fetchTopic topic])

/-- The lookup handler proper: the response component of the traced model. -/
def lookupHandler (fetch : String → String × Option String) (r : Request) : Response :=
  (lookupHandlerTr fetch r).1

/-- The process configuration the server actually runs with. -/
structure ServerConfig where
  listenAddr : String
  lang : String
  deriving DecidableEq, Repr

/-- Configuration resolution of main (main.go lines 60-86): the program
defines no command-line flags and reads no environment variables, so both
are ignored; the listen address is the constant :8080 passed to
http.ListenAndServe (line 85), which binds every interface, and the go-wiki
content language is never changed from the library default en (the source
never calls a language setter; fetchWikipediaSummary passes only the topic
and the constant -1 page id, line 19). -/
def configure (_argv : List String) (_env : List (String × String)) : ServerConfig :=
  { listenAddr := ":8080", lang := "en" }

/-! Helper lemmas. -/

/-- Joining a single write yields that write. -/
theorem join_singleton (s : String) : String.join [s] = s := rfl

set_option maxHeartbeats 1000000 in
/-- The escaping of one character is never empty. -/
theorem goJSONEscapeChar_ne_nil (c : Char) : goJSONEscapeChar c ≠ [] := by
  unfold goJSONEscapeChar
  split
  · exact List.cons_ne_nil _ _
  split
  · exact List.cons_ne_nil _ _
  split
  · exact List.cons_ne_nil _ _
  split
  · exact List.cons_ne_nil _ _
  split
  · exact List.cons_ne_nil _ _
  split
  · decide
  split
  · decide
  split
  · decide
  split
  · exact List.cons_ne_nil _ _
  split
  · decide
  split
  · decide
  exact List.cons_ne_nil _ _

/-- The escaping of a nonempty character list is nonempty. -/
theorem escapeChars_ne_nil (l : List Char) (h : l ≠ []) : escapeChars l ≠ [] := by
  cases l with
  | nil => exact absurd rfl h
  | cons c cs =>
      intro heq
      simp only [escapeChars] at heq
      exact goJSONEscapeChar_ne_nil c (List.append_eq_nil.mp heq).1

/-- A nonempty string has a JSON literal different from the literal of the
empty string. -/
theorem goJSONString_ne_of_ne_empty (v : String) (h : v ≠ "") :
    goJSONString v ≠ goJSONString "" := by
  intro heq
  have hdata : v.data ≠ [] := by
    intro hd
    exact h (String.ext hd)
  have hlist := congrArg String.data heq
  simp only [goJSONString, String.data_append] at hlist
  have hlen := congrArg List.length hlist
  simp [escapeChars] at hlen
  exact escapeChars_ne_nil v.data hdata hlen

/-! Concrete fixtures used by the witnesses. -/

/-- A provider whose page resolution and summary extraction both succeed. -/
def okProvider : Provider Unit :=
  { getPage := fun _ _ _ _ => Except.ok ()
  , getSummary := fun _ => Except.ok "General relativity is a theory of gravitation." }

/-- A provider whose page resolution fails. -/
def noPageProvider : Provider Unit :=
  { getPage := fun _ _ _ _ => Except.error "page not found"
  , getSummary := fun _ => Except.error "no summary" }

/-- A provider that finds the page but cannot extract a summary. -/
def noSummaryProvider : Provider Unit :=
  { getPage := fun _ _ _ _ => Except.ok ()
  , getSummary := fun _ => Except.error "unable to extract summary" }

/-- A POST request to the lookup path whose body reads successfully. -/
def postReq (b : String) : Request :=
  { method := "POST", path := "/lookup", headers := [], body := Except.ok b }

/-- A GET request to a given path with an empty body. -/
def getReq (p : String) : Request :=
  { method := "GET", path := p, headers := [], body := Except.ok "" }

/-! Claim theorems. -/

/-- C1: for every POST request to the lookup path whose body is read
successfully and for which the summary fetcher succeeds with summary s, the
handler responds with status 200 and the response body is exactly s, written
verbatim as the single body write. -/
theorem lookup_post_success_200_single_write
    (fetch : String → String × Option String) (r : Request) (t s : String)
    (hm : r.method = "POST") (hb : r.body = Except.ok t)
    (hf : fetch t = (s, none)) :
    (lookupHandlerTr fetch r).1.status = 200 ∧
    (lookupHandlerTr fetch r).1.writes = [s] ∧
    (lookupHandlerTr fetch r).1.body = s := by
  simp [lookupHandlerTr, hm, hb, hf, Response.body, join_singleton]

/-- Witness for C1 at a concrete request and a concrete provider. -/
theorem lookup_post_success_200_single_write_witness :
    (postReq "General relativity").method = "POST" ∧
    (postReq "General relativity").body = Except.ok "General relativity" ∧
    fetchWikipediaSummary okProvider "General relativity" =
      ("General relativity is a theory of gravitation.", none) ∧
    (lookupHandlerTr (fetchWikipediaSummary okProvider)
        (postReq "General relativity")).1.status = 200 ∧
    (lookupHandlerTr (fetchWikipediaSummary okProvider)
        (postReq "General relativity")).1.body =
      "General relativity is a theory of gravitation." :=
  ⟨rfl, rfl, rfl,
   (lookup_post_success_200_single_write _ _ _ _ rfl rfl rfl).1,
   (lookup_post_success_200_single_write _ _ _ _ rfl rfl rfl).2.2⟩

/-- C2: for every request to the lookup path whose method is not POST, the
handler responds with the method-not-allowed error (status 405) and performs
no observable step: the body is not read and the fetcher is not invoked. -/
theorem lookup_non_post_405_no_processing
    (fetch : String → String × Option String) (r : Request)
    (hm : r.method ≠ "POST") :
    (lookupHandlerTr fetch r).1 = httpError "POST required" 405 ∧
    (lookupHandlerTr fetch r).1.status = 405 ∧
    (lookupHandlerTr fetch r).2 = [] := by
  simp [lookupHandlerTr, hm, httpError]

/-- Witness for C2 at a concrete GET request. -/
theorem lookup_non_post_405_no_processing_witness :
    ({ method := "GET", path := "/lookup", headers := [], body := Except.ok "Go" } :
        Request).method ≠ "POST" ∧
    (lookupHandlerTr (fetchWikipediaSummary okProvider)
        { method := "GET", path := "/lookup", headers := [], body := Except.ok "Go" }).1.status
      = 405 ∧
    (lookupHandlerTr (fetchWikipediaSummary okProvider)
        { method := "GET", path := "/lookup", headers := [], body := Except.ok "Go" }).2 = [] :=
  ⟨by decide,
   (lookup_non_post_405_no_processing _ _ (by decide)).2.1,
   (lookup_non_post_405_no_processing _ _ (by decide)).2.2⟩

/-- C3: for every POST request to the lookup path for which the fetcher
returns an error e, the handler responds with status 500 and the body is the
lookup-error prefix followed by the textual description of e (and the
newline appended by the error writer). -/
theorem lookup_fetch_error_500_message
    (fetch : String → String × Option String) (r : Request) (t s e : String)
    (hm : r.method = "POST") (hb : r.body = Except.ok t)
    (hf : fetch t = (s, some e)) :
    (lookupHandlerTr fetch r).1.status = 500 ∧
    (lookupHandlerTr fetch r).1.body = "lookup error: " ++ e ++ "\n" := by
  simp [lookupHandlerTr, hm, hb, hf, Response.body, join_singleton, httpError]

/-- Witness for C3 at a concrete request and a failing provider. -/
theorem lookup_fetch_error_500_message_witness :
    (postReq "zzqy").method = "POST" ∧
    (postReq "zzqy").body = Except.ok "zzqy" ∧
    fetchWikipediaSummary noPageProvider "zzqy" = ("", some "page not found") ∧
    (lookupHandlerTr (fetchWikipediaSummary noPageProvider) (postReq "zzqy")).1.status = 500 ∧
    (lookupHandlerTr (fetchWikipediaSummary noPageProvider) (postReq "zzqy")).1.body =
      "lookup error: page not found\n" :=
  ⟨rfl, rfl, rfl,
   (lookup_fetch_error_500_message _ _ "zzqy" "" "page not found" rfl rfl rfl).1,
   (lookup_fetch_error_500_message _ _ "zzqy" "" "page not found" rfl rfl rfl).2⟩

/-- C6: for every POST request to the lookup path whose body is read
successfully, the handler reads the body once and passes it verbatim, as the
topic, to the summary fetcher — whatever string it is, the empty string
included. -/
theorem lookup_topic_passed_verbatim
    (fetch : String → String × Option String) (r : Request) (t : String)
    (hm : r.method = "POST") (hb : r.body = Except.ok t) :
    (lookupHandlerTr fetch r).2 = [HEvent.readBody, HEvent.fetchTopic t] := by
  rcases hf : fetch t with ⟨s, e⟩
  cases e <;> simp [lookupHandlerTr, hm, hb, hf]

/-- Witness for C6 at a concrete request with an empty body. -/
theorem lookup_topic_passed_verbatim_witness :
    (postReq "").method = "POST" ∧
    (postReq "").body = Except.ok "" ∧
    (lookupHandlerTr (fetchWikipediaSummary noPageProvider) (postReq "")).2 =
      [HEvent.readBody, HEvent.fetchTopic ""] :=
  ⟨rfl, rfl, lookup_topic_passed_verbatim _ _ _ rfl rfl⟩

/-- C7: for every POST request to the lookup path for which reading the body
fails, the handler responds with status 400 and the fetcher is never invoked
(the trace holds the failed body read only). -/
theorem lookup_body_error_400_no_fetch
    (fetch : String → String × Option String) (r : Request) (e : String)
    (hm : r.method = "POST") (hb : r.body = Except.error e) :
    (lookupHandlerTr fetch r).1 = httpError "cannot read body" 400 ∧
    (lookupHandlerTr fetch r).1.status = 400 ∧
    (lookupHandlerTr fetch r).2 = [HEvent.readBody] := by
  simp [lookupHandlerTr, hm, hb, httpError]

/-- Witness for C7 at a concrete request whose body read fails. -/
theorem lookup_body_error_400_no_fetch_witness :
    ({ method := "POST", path := "/lookup", headers := [],
        body := Except.error "client disconnected" } : Request).body =
      Except.error "client disconnected" ∧
    (lookupHandlerTr (fetchWikipediaSummary okProvider)
        { method := "POST", path := "/lookup", headers := [],
          body := Except.error "client disconnected" }).1.status = 400 ∧
    (lookupHandlerTr (fetchWikipediaSummary okProvider)
        { method := "POST", path := "/lookup", headers := [],
          body := Except.error "client disconnected" }).2 = [HEvent.readBody] :=
  ⟨rfl,
   (lookup_body_error_400_no_fetch _ _ _ rfl rfl).2.1,
   (lookup_body_error_400_no_fetch _ _ _ rfl rfl).2.2⟩

/-- C9: the lookup handler is a function of the request method, the request
body and the fetcher only: two requests agreeing on method and body receive
identical responses (and traces), whatever their paths or headers, with the
provider modelled as a fixed function from topics to results. -/
theorem lookup_deterministic_in_method_and_body
    (fetch : String → String × Option String) (r₁ r₂ : Request)
    (hm : r₁.method = r₂.method) (hb : r₁.body = r₂.body) :
    lookupHandlerTr fetch r₁ = lookupHandlerTr fetch r₂ := by
  unfold lookupHandlerTr
  rw [hm, hb]

/-- Witness for C9: two concrete requests differing in their header lists
receive identical responses. -/
theorem lookup_deterministic_in_method_and_body_witness :
    ({ method := "POST", path := "/lookup", headers := [("X-Trace", "1")],
        body := Except.ok "Go" } : Request).method =
      ({ method := "POST", path := "/lookup", headers := [("X-Trace", "2")],
          body := Except.ok "Go" } : Request).method ∧
    lookupHandlerTr (fetchWikipediaSummary okProvider)
        { method := "POST", path := "/lookup", headers := [("X-Trace", "1")],
          body := Except.ok "Go" } =
      lookupHandlerTr (fetchWikipediaSummary okProvider)
        { method := "POST", path := "/lookup", headers := [("X-Trace", "2")],
          body := Except.ok "Go" } :=
  ⟨rfl, lookup_deterministic_in_method_and_body _ _ _ rfl rfl⟩

/-- C4 counterexample: at a concrete GET request to the health path the body
is not exactly the bare JSON object with status ok — json.Encoder appends a
newline after the object. -/
theorem health_body_not_bare_json :
    (healthHandler (getReq "/health")).body ≠ "\x7b\"status\":\"ok\"\x7d" := by
  decide

/-- C4 (amended): for every request to the health path, regardless of method,
the handler responds with status 200, Content-Type application/json, and a
body that is exactly the JSON object with status ok followed by the single
newline the JSON encoder appends. -/
theorem health_200_json_body (r : Request) :
    (healthHandler r).status = 200 ∧
    (healthHandler r).headers = [("Content-Type", "application/json")] ∧
    (healthHandler r).body = "\x7b\"status\":\"ok\"\x7d\n" :=
  ⟨rfl, rfl, by
    show goEncodeStringMap [("status", "ok")] ++ "\n" = "\x7b\"status\":\"ok\"\x7d\n"
    decide⟩

/-- C5 evaluation: the configuration step of main ignores the command line
and the environment completely — starting the process with a language flag
and a language environment variable yields the very same configuration as a
bare start, with the hard-coded listen address :8080 and the default content
language en. The program offers no startup configuration of address, port or
language, contradicting the documented flags. -/
theorem configure_ignores_flags_and_env :
    configure ["-lang=de"] [("LANG", "de")] = configure [] [] ∧
    (configure ["-lang=de"] [("LANG", "de")]).listenAddr = ":8080" ∧
    (configure ["-lang=de"] [("LANG", "de")]).lang = "en" :=
  ⟨rfl, rfl, rfl⟩

/-- C8: for every request to the version path, regardless of method, and for
every nonempty version string v, the handler responds with status 200 and a
JSON body that encodes the map with name field wikipedia-agent and version
field v; the encoded version field differs from the encoding of the empty
string, so the version field is non-empty. -/
theorem version_200_name_nonempty_version (r : Request) (v : String)
    (hv : v ≠ "") :
    (versionHandler v r).status = 200 ∧
    (versionHandler v r).body =
      goEncodeStringMap [("name", "wikipedia-agent"), ("version", v)] ++ "\n" ∧
    goJSONString "wikipedia-agent" = "\"wikipedia-agent\"" ∧
    goJSONString v ≠ goJSONString "" :=
  ⟨rfl, rfl, by decide, goJSONString_ne_of_ne_empty v hv⟩

/-- Witness for C8 at the in-source default version string dev, with the
body fully evaluated. -/
theorem version_200_name_nonempty_version_witness :
    ("dev" : String) ≠ "" ∧
    (versionHandler "dev" (getReq "/version")).status = 200 ∧
    (versionHandler "dev" (getReq "/version")).body =
      "\x7b\"name\":\"wikipedia-agent\",\"version\":\"dev\"\x7d\n" :=
  ⟨by decide,
   (version_200_name_nonempty_version (getReq "/version") "dev" (by decide)).1,
   by
     have h := (version_200_name_nonempty_version (getReq "/version") "dev" (by decide)).2.1
     rw [h]
     decide⟩

/-- C10: for every provider and topic, the fetcher returns the empty string
whenever it returns an error; GetPage is called exactly once; GetSummary is
called at most once, and only with a page that GetPage succeeded with; and
the traced model computes the same result as fetchWikipediaSummary. -/
theorem fetch_summary_error_pairing_and_call_discipline
    {Page : Type} (P : Provider Page) (topic : String) :
    ((fetchWikipediaSummaryTr P topic).1.2.isSome = true →
      (fetchWikipediaSummaryTr P topic).1.1 = "") ∧
    countGetPage (fetchWikipediaSummaryTr P topic).2 = 1 ∧
    countGetSummary (fetchWikipediaSummaryTr P topic).2 ≤ 1 ∧
    (∀ pg : Page, PCall.getSummary pg ∈ (fetchWikipediaSummaryTr P topic).2 →
      P.getPage topic (-1) false false = Except.ok pg) ∧
    (fetchWikipediaSummaryTr P topic).1 = fetchWikipediaSummary P topic := by
  unfold fetchWikipediaSummaryTr fetchWikipediaSummary
  cases hp : P.getPage topic (-1) false false with
  | error e => simp [countGetPage, countGetSummary]
  | ok page =>
      cases hs : P.getSummary page with
      | error e => simp [countGetPage, countGetSummary, hs]
      | ok s => simp [countGetPage, countGetSummary, hs]

/-- Witness for C10 at a concrete provider and topic. -/
theorem fetch_summary_call_discipline_witness :
    countGetPage (fetchWikipediaSummaryTr noSummaryProvider "Go").2 = 1 ∧
    countGetSummary (fetchWikipediaSummaryTr noSummaryProvider "Go").2 ≤ 1 ∧
    (fetchWikipediaSummaryTr noSummaryProvider "Go").1 =
      fetchWikipediaSummary noSummaryProvider "Go" :=
  ⟨(fetch_summary_error_pairing_and_call_discipline noSummaryProvider "Go").2.1,
   (fetch_summary_error_pairing_and_call_discipline noSummaryProvider "Go").2.2.1,
   (fetch_summary_error_pairing_and_call_discipline noSummaryProvider "Go").2.2.2.2⟩
